import Mathlib

/-!
Shallow embedding of `Tribler/API/RateManager.py` (class `RateManager`).

Rates are modelled as exact rationals (the Python source uses floats; every
constant in the source is a short decimal, written here as a rational).
A torrent is handled by the source as a pair `(d, ds)` of a `Download` and a
`DownloadState`; the pair travels together everywhere, so it is modelled as a
single record `Download` holding both the mutable fields of `d`
(`max_speed`, `max_desired_speed`) and the read-only snapshot fields of `ds`
(`get_status`, `get_current_speed`, `has_active_connections`).  Python object
identity of `d` is modelled by the field `ident`.

The direction constants `UPLOAD`/`DOWNLOAD` and the `DLSTATUS_*` constants come
from `Tribler.API.simpledefs`, which is not part of the sources; they are
modelled from the spec as a two-element type `Dir` and a seven-element type
`DLStatus` (spec sections 3 and 4.1).
-/

inductive Dir : Type
  | upload
  | download
deriving DecidableEq, Repr

inductive DLStatus : Type
  | allocatingDiskspace
  | waiting4hashcheck
  | hashchecking
  | downloading
  | seeding
  | stopped
  | stoppedOnError
deriving DecidableEq, Repr

/-- A pair of per-direction rate values, one for upload and one for download. -/
structure Rates : Type where
  up : ℚ
  down : ℚ
deriving DecidableEq, Repr

def Rates.get : Rates → Dir → ℚ
  | r, .upload => r.up
  | r, .download => r.down

def Rates.set : Rates → Dir → ℚ → Rates
  | r, .upload, v => { r with up := v }
  | r, .download, v => { r with down := v }

/-- One torrent: the merged `(d, ds)` pair (see the header comment). -/
structure Download : Type where
  ident : Nat
  status : DLStatus
  activeConnections : Bool
  /-- Source `ds.get_current_speed(dir)` : the measured rate, read-only snapshot. -/
  current : Rates
  /-- Source `d.get_max_speed(dir)` / `d.set_max_speed(dir, v)` : the enforced rate. -/
  maxspeed : Rates
  /-- Source `d.get_max_desired_speed(dir)` / `d.set_max_desired_speed(dir, v)` :
  the desired rate, overloaded as optional local cap (0 = no cap). -/
  maxdesired : Rates
deriving DecidableEq, Repr

def Download.get_current_speed (d : Download) (dir : Dir) : ℚ :=
  d.current.get dir

def Download.get_max_speed (d : Download) (dir : Dir) : ℚ :=
  d.maxspeed.get dir

def Download.set_max_speed (d : Download) (dir : Dir) (v : ℚ) : Download :=
  { d with maxspeed := d.maxspeed.set dir v }

def Download.get_max_desired_speed (d : Download) (dir : Dir) : ℚ :=
  d.maxdesired.get dir

def Download.set_max_desired_speed (d : Download) (dir : Dir) (v : ℚ) : Download :=
  { d with maxdesired := d.maxdesired.set dir v }

def Download.has_active_connections (d : Download) : Bool :=
  d.activeConnections

/-- The `self.statusmap` dictionary: one list per `DLSTATUS_*` key
(exactly the seven keys initialised by `clear_downloadstates`). -/
structure StatusMap : Type where
  allocatingDiskspace : List Download
  waiting4hashcheck : List Download
  hashchecking : List Download
  downloading : List Download
  seeding : List Download
  stopped : List Download
  stoppedOnError : List Download
deriving DecidableEq, Repr

def StatusMap.get : StatusMap → DLStatus → List Download
  | sm, .allocatingDiskspace => sm.allocatingDiskspace
  | sm, .waiting4hashcheck => sm.waiting4hashcheck
  | sm, .hashchecking => sm.hashchecking
  | sm, .downloading => sm.downloading
  | sm, .seeding => sm.seeding
  | sm, .stopped => sm.stopped
  | sm, .stoppedOnError => sm.stoppedOnError

/-- Source `self.statusmap[s].append(x)`. -/
def StatusMap.appendTo : StatusMap → DLStatus → Download → StatusMap
  | sm, .allocatingDiskspace, x => { sm with allocatingDiskspace := sm.allocatingDiskspace ++ [x] }
  | sm, .waiting4hashcheck, x => { sm with waiting4hashcheck := sm.waiting4hashcheck ++ [x] }
  | sm, .hashchecking, x => { sm with hashchecking := sm.hashchecking ++ [x] }
  | sm, .downloading, x => { sm with downloading := sm.downloading ++ [x] }
  | sm, .seeding, x => { sm with seeding := sm.seeding ++ [x] }
  | sm, .stopped, x => { sm with stopped := sm.stopped ++ [x] }
  | sm, .stoppedOnError, x => { sm with stoppedOnError := sm.stoppedOnError ++ [x] }

def StatusMap.empty : StatusMap :=
  ⟨[], [], [], [], [], [], []⟩

/-- The mutable state of the `RateManager` instance.  The constant fields set
in `__init__` (`calcupth1`, `calcupth2`, `meancalcupth`, `rateminimum`) are
modelled as top-level definitions below since `__init__` always assigns the
same literals to them.  `self.dset` is a `Set` of `Download` objects, used
only for membership and size; it is modelled as the duplicate-free list of
their identities, in insertion order. -/
structure RateManager : Type where
  max_upload_rate : ℚ
  max_seed_upload_rate : ℚ
  max_download_rate : ℚ
  statusmap : StatusMap
  currenttotal : Rates
  dset : List Nat
deriving DecidableEq, Repr

/-- Source `self.calcupth1 = 2.3` : gap above which a torrent is to be lowered. -/
def calcupth1 : ℚ := 23 / 10

/-- Source `self.calcupth2 = 0.7` : gap at or below which a torrent may be raised. -/
def calcupth2 : ℚ := 7 / 10

/-- Source `self.meancalcupth = (self.calcupth1 + self.calcupth2) / 2`. -/
def meancalcupth : ℚ := (calcupth1 + calcupth2) / 2

/-- Source `self.rateminimum = { UPLOAD: 3.0, DOWNLOAD: 0.01 }`. -/
def rateminimum : Dir → ℚ
  | .upload => 3
  | .download => 1 / 100

/-- Source `prioritizelocal = False` : a local constant of `CalculateBandwidth`
(line 183 of the source), not a constructor argument. -/
def prioritizelocal : Bool := false

/-- Source `clear_downloadstates` : reset every bucket, both totals and `dset`. -/
def clear_downloadstates (rm : RateManager) : RateManager :=
  { rm with statusmap := StatusMap.empty, currenttotal := ⟨0, 0⟩, dset := [] }

/-- Source `add_downloadstate(d, ds)` : register a torrent once per cycle; returns
the number of unique states currently stored together with the new state. -/
def add_downloadstate (rm : RateManager) (d : Download) : Nat × RateManager :=
  if d.ident ∈ rm.dset then
    (rm.dset.length, rm)
  else
    let rm' : RateManager :=
      { rm with
        statusmap := rm.statusmap.appendTo d.status d,
        currenttotal := ⟨rm.currenttotal.up + d.current.up,
                         rm.currenttotal.down + d.current.down⟩,
        dset := rm.dset ++ [d.ident] }
    (rm'.dset.length, rm')

/-- Source `MaxRate(dir)` : the effective global cap for a direction. -/
def MaxRate (rm : RateManager) (dir : Dir) : ℚ :=
  match dir with
  | .upload =>
      if (rm.statusmap.get .downloading).length = 0 ∧
         (rm.statusmap.get .seeding).length > 0 then
        rm.max_seed_upload_rate
      else
        rm.max_upload_rate
  | .download => rm.max_download_rate

/-- Source `any_torrents_checking()`. -/
def any_torrents_checking (rm : RateManager) : Bool :=
  (rm.statusmap.get .allocatingDiskspace).length > 0 ∨
  (rm.statusmap.get .waiting4hashcheck).length > 0 ∨
  (rm.statusmap.get .hashchecking).length > 0

/-!
The allocator, `CalculateBandwidth(dir)` (source lines 124-585).

The source mutates the `Download` objects held by the registry; here the
algorithm is split into one definition per loop of the source, each returning
the updated torrents (and the running sum the loop accumulates, where it has
one).  Aliasing between the bucket lists and the working set is modelled by
joining the updated bucket contents back by `ident` (`updateByIdent`), which
matches the source exactly whenever the objects in the working set are
pairwise distinct (distinct `ident`s).
-/

/-- The torrent dispatch of lines 217-253: each working-set torrent lands in
exactly one bucket, or is reset (`currentrate < 0.05`, desired rate set to 0)
or left alone (the dead zone of the final `else`); those last two kinds are
collected in `rest` in working-set order.  `meanrate` is the accumulator of
lines 247 and 251. -/
structure Buckets : Type where
  rest : List Download
  localprioactive : List Download
  tobelowered : List Download
  toberaised : List Download
  toberaisedinpriority : List Download
  nottobechanged : List Download
  meanrate : ℚ
deriving DecidableEq, Repr

def Buckets.empty : Buckets :=
  ⟨[], [], [], [], [], [], 0⟩

def dispatch (dir : Dir) : List Download → Buckets
  | [] => .empty
  | d :: ws =>
    let B := dispatch dir ws
    let currentrate := d.get_current_speed dir
    let currentlimit := d.get_max_speed dir
    let maxdesiredrate := d.get_max_desired_speed dir
    if prioritizelocal = true ∧ maxdesiredrate ≠ 0 then
      { B with localprioactive := d :: B.localprioactive }
    else if currentrate < 1 / 20 then
      { B with rest := d.set_max_desired_speed dir 0 :: B.rest }
    else if currentlimit - currentrate > calcupth1 then
      { B with tobelowered := d :: B.tobelowered }
    else if currentlimit - currentrate ≤ calcupth2 then
      if currentrate < rateminimum dir then
        { B with toberaisedinpriority := d :: B.toberaisedinpriority }
      else
        { B with toberaised := d :: B.toberaised, meanrate := B.meanrate + currentlimit }
    else if currentrate > rateminimum dir then
      { B with nottobechanged := d :: B.nottobechanged, meanrate := B.meanrate + currentlimit }
    else
      { B with rest := d :: B.rest }

/-- The `< 0.05` reset of line 236, applied to a whole working set: the value
each torrent's fields have once the dispatch pass has run (the dispatch pass
happens before the free-wheeling branch reads the torrents). -/
def resetNearZero (dir : Dir) (ws : List Download) : List Download :=
  ws.map fun d =>
    if ¬(prioritizelocal = true ∧ d.get_max_desired_speed dir ≠ 0) ∧
       d.get_current_speed dir < 1 / 20 then
      d.set_max_desired_speed dir 0
    else d

/-- Lines 299-311: grant the minimum rate to `toberaisedinpriority`; returns
`grantedfortoberaisedinpriority` and the updated torrents. -/
def raiseinpriority_step (dir : Dir) : List Download → ℚ × List Download
  | [] => (0, [])
  | d :: l =>
    let r := raiseinpriority_step dir l
    let currentrate := d.get_current_speed dir
    let maxdesiredrate := d.get_max_desired_speed dir
    let newreservedrate := currentrate + meancalcupth
    if newreservedrate > rateminimum dir then
      (r.1 + (rateminimum dir - maxdesiredrate),
       d.set_max_desired_speed dir (rateminimum dir) :: r.2)
    else
      (r.1 + (newreservedrate - maxdesiredrate),
       d.set_max_desired_speed dir newreservedrate :: r.2)

/-- Lines 318-335: serve the local-priority torrents; returns
`grantedforlocaltoberaised` and the updated torrents (desired rate set, and
enforced rate set to the local cap directly, ahead of the apply step). -/
def localprio_step (dir : Dir) : List Download → ℚ × List Download
  | [] => (0, [])
  | d :: l =>
    let r := localprio_step dir l
    let currentrate := d.get_current_speed dir
    let maxdesiredrate := d.get_max_desired_speed dir
    let newrate0 := currentrate + meancalcupth
    let maxlocalrate := maxdesiredrate
    let newrate := if newrate0 > maxlocalrate then maxlocalrate else newrate0
    (r.1 + (newrate - maxdesiredrate),
     ((d.set_max_desired_speed dir newrate).set_max_speed dir maxlocalrate) :: r.2)

/-- Lines 339-347: lower the `tobelowered` torrents to `measured + mean
threshold`; returns `givenbackbytobelowered` and the updated torrents. -/
def tobelowered_step (dir : Dir) : List Download → ℚ × List Download
  | [] => (0, [])
  | d :: l =>
    let r := tobelowered_step dir l
    let currentrate := d.get_current_speed dir
    let maxdesiredrate := d.get_max_desired_speed dir
    let newreservedrate := currentrate + meancalcupth
    (r.1 + (newreservedrate - maxdesiredrate),
     d.set_max_desired_speed dir newreservedrate :: r.2)

/-- Lines 378-392 (Phase 1): `claimedrate`, the total extra rate the
`toberaised` torrents ask for (each claim clamped to the local cap). -/
def claimedrate (dir : Dir) : List Download → ℚ
  | [] => 0
  | d :: l =>
    let currentrate := d.get_current_speed dir
    let maxdesiredrate := d.get_max_desired_speed dir
    let maxup := maxdesiredrate
    let newreservedrate := currentrate + meancalcupth
    let maxlocalup := maxdesiredrate
    let toadd := if maxlocalup > 0 ∧ newreservedrate > maxlocalup then maxlocalup
                 else newreservedrate
    (toadd - maxup) + claimedrate dir l

/-- Lines 405-418 (Phase 1): raise each `toberaised` torrent by its claim
times `realupfactor`. -/
def phase1_update (dir : Dir) (realupfactor : ℚ) (l : List Download) : List Download :=
  l.map fun d =>
    let currentrate := d.get_current_speed dir
    let maxdesiredrate := d.get_max_desired_speed dir
    let maxup := maxdesiredrate
    let newreservedrate := currentrate + meancalcupth
    let maxlocalup := maxdesiredrate
    let newmaxup := if maxlocalup > 0 ∧ newreservedrate > maxlocalup then
                      maxup + (maxlocalup - maxup) * realupfactor
                    else
                      maxup + (newreservedrate - maxup) * realupfactor
    d.set_max_desired_speed dir newmaxup

/-- Lines 460-474 (Phase 2a): one walk over the sorted pool.  The running
`ratenotassignedforeach` starts at `available / |pool|`; when a torrent would
drop below the minimum the unmet part is divided among the remaining torrents
(the source guard `i != sizerate_id` is exactly `rest` being non-empty, and
`sizerate_id - i` is `rest.length`). -/
def lower_walk (dir : Dir) : ℚ → List Download → List Download
  | _, [] => []
  | ratenot, d :: rest =>
    let newmaxrate := d.get_max_desired_speed dir + ratenot
    if newmaxrate < rateminimum dir then
      let ratenot' := if rest.length ≠ 0 then
                        ratenot + (newmaxrate - rateminimum dir) / (rest.length : ℚ)
                      else ratenot
      d.set_max_desired_speed dir (rateminimum dir) :: lower_walk dir ratenot' rest
    else
      d.set_max_desired_speed dir newmaxrate :: lower_walk dir ratenot rest

/-- Lines 439-474 (Phase 2a): build the pool (`rate_id`), sort it by
increasing enforced rate (Python `list.sort` is stable; `insertionSort` is
too; on a sort failure the source degrades to insertion order, a case that
cannot arise here) and walk it.  When the pool is empty the walk returns `[]`
and the initial quotient is never used, matching the `if rate_id:` guard. -/
def phase2a (dir : Dir) (available : ℚ) (toberaised nottobechanged : List Download) :
    List Download :=
  let rate_id := (toberaised ++ nottobechanged).filter
    (fun d => rateminimum dir < d.get_current_speed dir)
  let sorted := rate_id.insertionSort
    (fun a b => a.get_max_speed dir ≤ b.get_max_speed dir)
  lower_walk dir (available / (rate_id.length : ℚ)) sorted

/-- Replace a torrent by its updated incarnation when one with the same
identity is present in `upd` (the write-back of the in-place mutation of a
bucket member, faithful for pairwise-distinct identities). -/
def updateByIdent : List Download → Download → Download
  | [], d => d
  | u :: rest, d => if u.ident = d.ident then u else updateByIdent rest d

/-- Lines 507-520 (Phase 2b): split `toberaised` around the mean rate;
returns `(allabovem-part, raisedbelowm)`, each in input order. -/
def partition_raised (dir : Dir) (meanrate : ℚ) :
    List Download → List Download × List Download
  | [] => ([], [])
  | d :: l =>
    let r := partition_raised dir meanrate l
    let maxdesiredrate := d.get_max_desired_speed dir
    if maxdesiredrate > meanrate then (d :: r.1, r.2)
    else if maxdesiredrate < meanrate then (r.1, d :: r.2)
    else r

/-- Lines 549-573 (Phase 2c): the sequential raise of `raisedbelowm`,
accumulating `realup`; `up > down` guards the `limitup` factor exactly as in
the source. -/
def raise_slow (dir : Dir) (meanrate up down : ℚ) : List Download → ℚ × List Download
  | [] => (0, [])
  | d :: l =>
    let r := raise_slow dir meanrate up down l
    let currentrate := d.get_current_speed dir
    let maxdesiredrate := d.get_max_desired_speed dir
    let maxup := maxdesiredrate
    let maxlocalrate_float := maxdesiredrate
    let toadd0 := if maxlocalrate_float > 0 ∧ maxlocalrate_float ≤ meanrate then
                    maxlocalrate_float - maxup
                  else meanrate - maxup
    let toadd := if up > down then toadd0 * (down / up) else toadd0
    let step := 2 * (currentrate + calcupth2 - maxup)
    if toadd < step then
      (r.1 + toadd, d.set_max_desired_speed dir (maxup + toadd) :: r.2)
    else
      (r.1 + step, d.set_max_desired_speed dir (maxup + step) :: r.2)

/-- Lines 576-578 (Phase 2c): slow down every `allabovem` torrent by
`realup`; no floor is applied. -/
def slow_down (dir : Dir) (realup : ℚ) (l : List Download) : List Download :=
  l.map fun d =>
    d.set_max_desired_speed dir (d.get_max_desired_speed dir - realup)

/-- The whole of Phase 2c (lines 523-578), for non-empty `raisedbelowm` and
`allabovem`: returns the updated `raisedbelowm`, the updated `allabovem` and
the final `realup` (already divided by `|allabovem|`). -/
structure Exchange : Type where
  belowmUpd : List Download
  abovemUpd : List Download
  realup : ℚ
deriving DecidableEq, Repr

def phase2c (dir : Dir) (meanrate : ℚ) (raisedbelowm allabovem : List Download) : Exchange :=
  let up := (raisedbelowm.map fun d =>
    let maxdesiredrate := d.get_max_desired_speed dir
    let maxlocalrate_float := maxdesiredrate
    if maxlocalrate_float > 0 ∧ maxlocalrate_float ≤ meanrate then
      maxlocalrate_float - maxdesiredrate
    else meanrate - maxdesiredrate).sum
  let down := (allabovem.map fun d => d.get_max_desired_speed dir - meanrate).sum
  let r := raise_slow dir meanrate up down raisedbelowm
  let realup := r.1 / (allabovem.length : ℚ)
  ⟨r.2, slow_down dir realup allabovem, realup⟩

/-- Source `make_it_so(direct, torrentlist)` (lines 588-590).  The source body reads
`d.get_max_desired_speed(dir)`: the name `dir` is not the parameter `direct`
and is not bound anywhere in `make_it_so`.  Modelled from the spec (section
9), which reads the source as referencing an outer-scope direction variable:
the extra argument `dirOuter` is the direction that free name denotes at the
call.  The write uses the parameter `direct`; the read uses `dirOuter`. -/
def make_it_so (direct dirOuter : Dir) (torrentlist : List Download) : List Download :=
  torrentlist.map fun d =>
    d.set_max_speed direct (d.get_max_desired_speed dirOuter)

/-- The working set of lines 128-138: `Downloading` (download) or
`Downloading + Seeding` (upload), restricted to torrents with active
connections. -/
def workingset (rm : RateManager) (dir : Dir) : List Download :=
  (match dir with
   | .upload => rm.statusmap.get .downloading ++ rm.statusmap.get .seeding
   | .download => rm.statusmap.get .downloading).filter
    (fun d => d.has_active_connections)

/-- Source `CalculateBandwidth(dir)`, returning the final values of the working-set
torrents.  Inside `CalculateBandwidth` the local variable `dir` is the cycle
direction, so the free name read by `make_it_so` (see `make_it_so`) denotes
`dir` here and both arguments coincide.  The returned list is
`toberegulated` (in bucket order: unbucketed torrents, then the raised-in-
priority, lowered, raised and unchanged buckets) followed by the
local-priority torrents; the source keeps the original working-set order, a
permutation of this one, and no claim depends on the order. -/
def CalculateBandwidthWS (rm : RateManager) (dir : Dir) : List Download :=
  let ws := workingset rm dir
  if ws = [] then ws
  else
    let maxrate := MaxRate rm dir
    if maxrate = 0 then
      -- lines 148-154: unlimited rate
      ws.map fun d => d.set_max_speed dir (d.get_max_desired_speed dir)
    else
      let B := dispatch dir ws
      let availableratetobedistributed := maxrate
      if availableratetobedistributed ≠ 0 ∧
         1 - rm.currenttotal.get dir / availableratetobedistributed > 1 / 5 then
        -- lines 264-291: free-wheeling; the dispatch pass has already reset
        -- the near-zero torrents, so the loop runs over `resetNearZero ws`
        (resetNearZero dir ws).map fun d =>
          let currentrate := d.get_current_speed dir
          let maxdesiredrate := d.get_max_desired_speed dir
          let newrate0 := currentrate + meancalcupth
          let maxlocalrate := maxdesiredrate
          if maxlocalrate > 0 then
            let newrate := if newrate0 > maxlocalrate then maxlocalrate else newrate0
            (d.set_max_desired_speed dir newrate).set_max_speed dir maxlocalrate
          else
            (d.set_max_desired_speed dir newrate0).set_max_speed dir (MaxRate rm dir)
      else
        let p := raiseinpriority_step dir B.toberaisedinpriority
        let lp := localprio_step dir B.localprioactive
        let lw := tobelowered_step dir B.tobelowered
        let available := availableratetobedistributed + lw.1 - p.1 - lp.1 -
          rm.currenttotal.get dir
        if B.toberaised = [] then
          -- line 360: nothing wants to be raised
          make_it_so dir dir (B.rest ++ p.2 ++ lw.2 ++ B.nottobechanged) ++ lp.2
        else if available > 0 then
          -- Phase 1
          let claimed := claimedrate dir B.toberaised
          let realupfactor := if claimed ≤ available then 1 else available / claimed
          let raisedUpd := phase1_update dir realupfactor B.toberaised
          make_it_so dir dir (B.rest ++ p.2 ++ lw.2 ++ raisedUpd ++ B.nottobechanged) ++ lp.2
        else
          -- Phase 2
          let poolRes := if available < 0 then
                           phase2a dir available B.toberaised B.nottobechanged
                         else []
          let raised1 := B.toberaised.map (updateByIdent poolRes)
          let ntbc1 := B.nottobechanged.map (updateByIdent poolRes)
          let meanrate := if B.toberaised ≠ [] ∨ B.nottobechanged ≠ [] then
                            B.meanrate /
                              ((B.toberaised.length + B.nottobechanged.length : ℕ) : ℚ)
                          else B.meanrate
          let pr := partition_raised dir meanrate raised1
          let allabovem := pr.1 ++ ntbc1.filter
            (fun d => meanrate < d.get_max_desired_speed dir)
          if pr.2 ≠ [] ∧ allabovem ≠ [] then
            let E := phase2c dir meanrate pr.2 allabovem
            let raised2 := raised1.map (updateByIdent (E.belowmUpd ++ E.abovemUpd))
            let ntbc2 := ntbc1.map (updateByIdent (E.belowmUpd ++ E.abovemUpd))
            make_it_so dir dir (B.rest ++ p.2 ++ lw.2 ++ raised2 ++ ntbc2) ++ lp.2
          else
            make_it_so dir dir (B.rest ++ p.2 ++ lw.2 ++ raised1 ++ ntbc1) ++ lp.2

/-- Write the mutated torrents back into every registry bucket (the source
mutates the shared objects in place). -/
def writeback (sm : StatusMap) (upd : List Download) : StatusMap :=
  ⟨sm.allocatingDiskspace.map (updateByIdent upd),
   sm.waiting4hashcheck.map (updateByIdent upd),
   sm.hashchecking.map (updateByIdent upd),
   sm.downloading.map (updateByIdent upd),
   sm.seeding.map (updateByIdent upd),
   sm.stopped.map (updateByIdent upd),
   sm.stoppedOnError.map (updateByIdent upd)⟩

/-- Source `CalculateBandwidth(dir)` as a state transformer on the manager. -/
def CalculateBandwidth (rm : RateManager) (dir : Dir) : RateManager :=
  { rm with statusmap := writeback rm.statusmap (CalculateBandwidthWS rm dir) }

/-- Source `adjust_speeds()` (lines 56-66): one full cycle, download pass then
upload pass, then `clear_downloadstates`.  Every potentially-failing step of
the cycle is guarded in the source (every division sits behind a non-empty
check and the Phase 2a sort failure is caught and degraded), so the cycle is
a total function here. -/
def adjust_speeds (rm : RateManager) : RateManager :=
  clear_downloadstates (CalculateBandwidth (CalculateBandwidth rm .download) .upload)

/-! Concrete torrents and manager states used by the per-claim witnesses and
counterexamples. -/

/-- A torrent whose desired rates differ between the two directions. -/
def exDownloadC1 : Download :=
  ⟨1, .downloading, true, ⟨0, 0⟩, ⟨0, 0⟩, ⟨5, 7⟩⟩

/-- Unlimited download cap, one active downloading torrent. -/
def exDownloadC3 : Download :=
  ⟨3, .downloading, true, ⟨0, 11⟩, ⟨0, 9⟩, ⟨0, 4⟩⟩

def exManagerC3 : RateManager :=
  ⟨0, 0, 0, { StatusMap.empty with downloading := [exDownloadC3] }, ⟨0, 11⟩, [3]⟩

/-- C7 and C8: a fresh manager and a torrent to register. -/
def exManagerReg : RateManager :=
  ⟨20, 10, 0, StatusMap.empty, ⟨0, 0⟩, []⟩

def exDownloadReg : Download :=
  ⟨7, .seeding, true, ⟨2, 3⟩, ⟨4, 5⟩, ⟨6, 0⟩⟩

/-- Same identity as `exDownloadReg`, different snapshot. -/
def exDownloadRegB : Download :=
  ⟨7, .downloading, false, ⟨9, 9⟩, ⟨9, 9⟩, ⟨9, 9⟩⟩

/-- C9: an active torrent with a non-zero desired rate that dispatch puts in
the raise-in-priority bucket (upload direction). -/
def exDownloadC9 : Download :=
  ⟨9, .downloading, true, ⟨1, 0⟩, ⟨3 / 2, 0⟩, ⟨5, 0⟩⟩

/-- C4: free-wheeling scenario of the spec (cap 100, total measured 50,
one transfer with measured rate 40 and no local cap). -/
def exDownloadC4 : Download :=
  ⟨41, .downloading, true, ⟨0, 40⟩, ⟨0, 0⟩, ⟨0, 0⟩⟩

def exManagerC4 : RateManager :=
  ⟨0, 0, 100, { StatusMap.empty with downloading := [exDownloadC4] }, ⟨0, 50⟩, [41]⟩

/-- C5 (counterexample): cap 10, one lowered torrent measured at 9 with
enforced rate 12 and no local cap; total measured 9 (90% utilisation, so no
free-wheeling). -/
def exDownloadC5 : Download :=
  ⟨51, .downloading, true, ⟨0, 9⟩, ⟨0, 12⟩, ⟨0, 0⟩⟩

def exManagerC5 : RateManager :=
  ⟨0, 0, 10, { StatusMap.empty with downloading := [exDownloadC5] }, ⟨0, 9⟩, [51]⟩

/-- C5 (witness for the amended bound): upload cap 8, one lowered and one
raised-in-priority torrent, pre-call desired rates zero, total measured 7. -/
def exDownloadC5a : Download :=
  ⟨52, .downloading, true, ⟨5, 0⟩, ⟨10, 0⟩, ⟨0, 0⟩⟩

def exDownloadC5b : Download :=
  ⟨53, .downloading, true, ⟨1, 0⟩, ⟨3 / 2, 0⟩, ⟨0, 0⟩⟩

def exManagerC5w : RateManager :=
  ⟨8, 0, 0, { StatusMap.empty with downloading := [exDownloadC5a, exDownloadC5b] },
   ⟨7, 0⟩, [52, 53]⟩

/-- C6: the deficit floor carry-forward scenario of the spec: three pooled
torrents with desired rates 4, 8, 9 (enforced rates already ascending),
available = -9, all measured above the upload minimum. -/
def exDownloadC6a : Download :=
  ⟨61, .downloading, true, ⟨10, 0⟩, ⟨4, 0⟩, ⟨4, 0⟩⟩

def exDownloadC6b : Download :=
  ⟨62, .downloading, true, ⟨10, 0⟩, ⟨8, 0⟩, ⟨8, 0⟩⟩

def exDownloadC6c : Download :=
  ⟨63, .downloading, true, ⟨10, 0⟩, ⟨9, 0⟩, ⟨9, 0⟩⟩

/-- C10: upload cap 120 fully utilised by four torrents; two raised torrents
with desired 0 (below the mean of 247/8), one raised torrent barely above the
mean (desired 31) and one unchanged torrent far above it (desired 100). -/
def exDownloadC10a : Download :=
  ⟨31, .downloading, true, ⟨30, 0⟩, ⟨61 / 2, 0⟩, ⟨0, 0⟩⟩

def exDownloadC10b : Download :=
  ⟨32, .downloading, true, ⟨30, 0⟩, ⟨61 / 2, 0⟩, ⟨0, 0⟩⟩

def exDownloadC10c : Download :=
  ⟨33, .downloading, true, ⟨30, 0⟩, ⟨61 / 2, 0⟩, ⟨31, 0⟩⟩

def exDownloadC10d : Download :=
  ⟨34, .downloading, true, ⟨30, 0⟩, ⟨32, 0⟩, ⟨100, 0⟩⟩

def exManagerC10 : RateManager :=
  ⟨120, 0, 0,
   { StatusMap.empty with
     downloading := [exDownloadC10a, exDownloadC10b, exDownloadC10c, exDownloadC10d] },
   ⟨120, 0⟩, [31, 32, 33, 34]⟩

/-- Every torrent the registry currently holds, across all status buckets. -/
def allEntries (sm : StatusMap) : List Download :=
  sm.allocatingDiskspace ++ sm.waiting4hashcheck ++ sm.hashchecking ++
    sm.downloading ++ sm.seeding ++ sm.stopped ++ sm.stoppedOnError

/-- The registry invariant of the spec (section 3): each direction's running
total equals the sum of the measured rates sampled at insertion time over
exactly the registered torrents, and the registered identities are exactly
the bucket contents. -/
def regInvariant (rm : RateManager) : Prop :=
  rm.currenttotal.up = ((allEntries rm.statusmap).map (fun d => d.current.up)).sum ∧
  rm.currenttotal.down = ((allEntries rm.statusmap).map (fun d => d.current.down)).sum ∧
  ((allEntries rm.statusmap).map (fun d => d.ident)).Perm rm.dset

/-! Small field lemmas used throughout the proofs. -/

@[simp]
theorem Rates.get_set_same (r : Rates) (dir : Dir) (v : ℚ) :
    (r.set dir v).get dir = v := by
  cases dir <;> rfl

@[simp]
theorem Download.get_max_speed_set_max_speed (d : Download) (dir : Dir) (v : ℚ) :
    (d.set_max_speed dir v).get_max_speed dir = v := by
  cases dir <;> rfl

@[simp]
theorem Download.maxdesired_set_max_speed (d : Download) (dir : Dir) (v : ℚ) :
    (d.set_max_speed dir v).maxdesired = d.maxdesired := rfl

@[simp]
theorem Download.get_max_desired_set_max_desired (d : Download) (dir : Dir) (v : ℚ) :
    (d.set_max_desired_speed dir v).get_max_desired_speed dir = v := by
  cases dir <;> rfl

@[simp]
theorem Download.current_set_max_desired (d : Download) (dir : Dir) (v : ℚ) :
    (d.set_max_desired_speed dir v).current = d.current := rfl

@[simp]
theorem Download.maxspeed_set_max_desired (d : Download) (dir : Dir) (v : ℚ) :
    (d.set_max_desired_speed dir v).maxspeed = d.maxspeed := rfl

/-- No torrent is ever dispatched to the local-priority bucket, because
`prioritizelocal` is the constant `False` of source line 183. -/
theorem dispatch_localprio_nil (dir : Dir) : ∀ ws, (dispatch dir ws).localprioactive = [] := by
  intro ws
  induction ws with
  | nil => rfl
  | cons d ws ih =>
    have h1 : ¬(prioritizelocal = true ∧ d.get_max_desired_speed dir ≠ 0) := by
      simp [prioritizelocal]
    simp only [dispatch, if_neg h1]
    split
    · exact ih
    split
    · exact ih
    split
    · split <;> exact ih
    split <;> exact ih

/-- C1 (code defect in the apply step).  `make_it_so` writes the enforced
rate of its parameter direction but reads the desired rate of the direction
the free name `dir` denotes: called for `download` while that name denotes
`upload`, it copies the upload desired rate (5) into the download enforced
rate, instead of the download desired rate (7). -/
theorem make_it_so_reads_outer_direction :
    (make_it_so .download .upload [exDownloadC1]).map
        (fun d => d.get_max_speed .download) = [5] ∧
    exDownloadC1.get_max_desired_speed .download = 7 ∧ (5 : ℚ) ≠ 7 := by
  refine ⟨rfl, rfl, by norm_num⟩

/-- C2: a cycle always completes (`adjust_speeds` is a total function: every
division in the source sits behind an emptiness guard and the Phase 2a sort
failure is caught), and the state it returns is the cleared registry: every
status bucket empty, both totals zero, `dset` empty. -/
theorem adjust_speeds_completes_and_clears (rm : RateManager) :
    (∀ s, (adjust_speeds rm).statusmap.get s = []) ∧
    (adjust_speeds rm).currenttotal = ⟨0, 0⟩ ∧
    (adjust_speeds rm).dset = [] := by
  refine ⟨fun s => ?_, rfl, rfl⟩
  cases s <;> rfl

/-- C3: with an unlimited cap (`MaxRate = 0`), every working-set torrent has
its enforced rate set to its pre-call desired rate and nothing else changes
(`set_max_speed` leaves `maxdesired` untouched); no classification or later
phase runs. -/
theorem unlimited_passthrough (rm : RateManager) (dir : Dir) (i : ℕ)
    (h0 : MaxRate rm dir = 0) (hi : i < (workingset rm dir).length) :
    (CalculateBandwidthWS rm dir)[i]? =
      some (((workingset rm dir).get ⟨i, hi⟩).set_max_speed dir
        (((workingset rm dir).get ⟨i, hi⟩).get_max_desired_speed dir)) := by
  have hne : workingset rm dir ≠ [] := by
    intro h
    rw [h] at hi
    simp at hi
  simp only [CalculateBandwidthWS]
  rw [if_neg hne, if_pos h0, List.getElem?_map, List.getElem?_eq_getElem hi]
  rfl

/-- Witness for C3 at a concrete state: the enforced download rate becomes
the pre-call desired rate 4. -/
theorem unlimited_passthrough_inst :
    MaxRate exManagerC3 .download = 0 ∧
    (CalculateBandwidthWS exManagerC3 .download)[0]? =
      some (exDownloadC3.set_max_speed .download 4) := by
  have hlen : 0 < (workingset exManagerC3 .download).length := by
    norm_num [workingset, exManagerC3, exDownloadC3, StatusMap.get, StatusMap.empty,
      Download.has_active_connections]
  have h := unlimited_passthrough exManagerC3 .download 0 rfl hlen
  refine ⟨rfl, ?_⟩
  rw [h]
  norm_num [workingset, exManagerC3, exDownloadC3, StatusMap.get, StatusMap.empty,
    Download.get_max_desired_speed, Download.has_active_connections, Rates.get]

/-- C7: registration is idempotent per identity — a second `add` with the
same identity (even with a different state snapshot) leaves the whole
registry state (buckets, totals, `dset`) unchanged — and every call returns
the number of unique states stored after the call. -/
theorem add_downloadstate_idempotent (rm : RateManager) (d e : Download)
    (h : e.ident = d.ident) :
    (add_downloadstate (add_downloadstate rm d).2 e).2 = (add_downloadstate rm d).2 ∧
    (add_downloadstate rm d).1 = (add_downloadstate rm d).2.dset.length ∧
    (add_downloadstate (add_downloadstate rm d).2 e).1 =
      (add_downloadstate (add_downloadstate rm d).2 e).2.dset.length := by
  by_cases hd : d.ident ∈ rm.dset
  · have he : e.ident ∈ rm.dset := h ▸ hd
    simp [add_downloadstate, hd, he]
  · have he : e.ident ∈ rm.dset ++ [d.ident] := by
      simp [h]
    simp [add_downloadstate, hd, he]

/-- Witness for C7: registering the same identity twice (with different
snapshots) equals registering it once, and both calls report the size. -/
theorem add_downloadstate_idempotent_inst :
    exDownloadRegB.ident = exDownloadReg.ident ∧
    (add_downloadstate (add_downloadstate exManagerReg exDownloadReg).2 exDownloadRegB).2 =
      (add_downloadstate exManagerReg exDownloadReg).2 ∧
    (add_downloadstate exManagerReg exDownloadReg).1 =
      (add_downloadstate exManagerReg exDownloadReg).2.dset.length := by
  have h := add_downloadstate_idempotent exManagerReg exDownloadReg exDownloadRegB rfl
  exact ⟨rfl, h.1, h.2.1⟩

/-- C9 (counterexample): `prioritizelocal` is the constant `False` — it is
not configuration that can be enabled — and a working-set torrent with a
non-zero desired rate is NOT bucketed local-priority: dispatch sends
`exDownloadC9` (desired rate 5, measured 1, enforced 1.5, upload) to the
raise-in-priority bucket. -/
theorem prioritizelocal_never_buckets :
    prioritizelocal = false ∧
    exDownloadC9.get_max_desired_speed .upload ≠ 0 ∧
    (dispatch .upload [exDownloadC9]).localprioactive = [] ∧
    (dispatch .upload [exDownloadC9]).toberaisedinpriority = [exDownloadC9] := by
  refine ⟨rfl, by norm_num [exDownloadC9, Download.get_max_desired_speed, Rates.get], ?_, ?_⟩ <;>
    norm_num [dispatch, exDownloadC9, prioritizelocal, Download.get_current_speed,
      Download.get_max_speed, Download.get_max_desired_speed, Rates.get, rateminimum,
      calcupth1, calcupth2, Buckets.empty]

/-- C9 (amended): the local-priority bucket is empty for every direction and
working set, and Step B therefore processes an empty list and grants zero
bandwidth. -/
theorem prioritizelocal_amended (dir : Dir) (ws : List Download) :
    (dispatch dir ws).localprioactive = [] ∧
    localprio_step dir (dispatch dir ws).localprioactive = (0, []) := by
  have h := dispatch_localprio_nil dir ws
  exact ⟨h, by rw [h]; rfl⟩

/-- Every torrent that comes out of the Phase 2a walk has a desired rate at
or above the minimum: it is either floored to the minimum or set to a value
the walk found to be at least the minimum. -/
theorem lower_walk_min_floor (dir : Dir) :
    ∀ (rate : ℚ) (l : List Download) (d : Download), d ∈ lower_walk dir rate l →
      rateminimum dir ≤ d.get_max_desired_speed dir := by
  intro rate l
  induction l generalizing rate with
  | nil => intro d h; simp [lower_walk] at h
  | cons x rest ih =>
    intro d h
    rw [lower_walk] at h
    split at h
    · rcases List.mem_cons.mp h with rfl | hm
      · simp
      · exact ih _ _ hm
    · rcases List.mem_cons.mp h with rfl | hm
      · rename_i hcond
        simpa using le_of_not_lt hcond
      · exact ih _ _ hm

/-- C6: no torrent processed through Phase 2a ends the phase with a desired
rate below the direction's minimum, and on the spec's carry-forward scenario
(three pooled torrents with desired rates 4, 8, 9, `available = -9`, so
`perItem = -3`) the lowest torrent is floored at 3 and its 2-unit shortfall
is redistributed (extra -1 each) over the remaining two, giving 4 and 5. -/
theorem phase2a_min_floor :
    (∀ (dir : Dir) (available : ℚ) (toberaised nottobechanged : List Download)
       (d : Download), d ∈ phase2a dir available toberaised nottobechanged →
         rateminimum dir ≤ d.get_max_desired_speed dir) ∧
    (phase2a .upload (-9) [exDownloadC6a, exDownloadC6b, exDownloadC6c] []).map
        (fun d => d.get_max_desired_speed .upload) = [3, 4, 5] := by
  constructor
  · intro dir available toberaised nottobechanged d h
    simp only [phase2a] at h
    exact lower_walk_min_floor dir _ _ d h
  · norm_num [phase2a, lower_walk, List.insertionSort, List.orderedInsert,
      exDownloadC6a, exDownloadC6b, exDownloadC6c, rateminimum,
      Download.get_current_speed, Download.get_max_speed,
      Download.get_max_desired_speed, Download.set_max_desired_speed,
      Rates.get, Rates.set]

/-- Witness for C6: the floored torrent of the scenario is in the walk's
output and satisfies the floor. -/
theorem phase2a_min_floor_inst :
    (exDownloadC6a.set_max_desired_speed .upload 3) ∈
      phase2a .upload (-9) [exDownloadC6a, exDownloadC6b, exDownloadC6c] [] ∧
    rateminimum .upload ≤
      (exDownloadC6a.set_max_desired_speed .upload 3).get_max_desired_speed .upload := by
  have hm : (exDownloadC6a.set_max_desired_speed .upload 3) ∈
      phase2a .upload (-9) [exDownloadC6a, exDownloadC6b, exDownloadC6c] [] := by
    norm_num [phase2a, lower_walk, List.insertionSort, List.orderedInsert,
      exDownloadC6a, exDownloadC6b, exDownloadC6c, rateminimum,
      Download.get_current_speed, Download.get_max_speed,
      Download.get_max_desired_speed, Download.set_max_desired_speed,
      Rates.get, Rates.set]
  exact ⟨hm, phase2a_min_floor.1 .upload (-9) _ _ _ hm⟩

/-- C10: in Phase 2c every `allabovem` torrent is slowed down by exactly the
final `realup` (the raise actually applied to `raisedbelowm`, divided by
`|allabovem|`), with no floor; and on the concrete cycle `exManagerC10`
(upload, cap 120 fully utilised) the torrent with desired rate 31 ends the
cycle at 1/8 — below the upload minimum of 3 and below the mean rate
247/8. -/
theorem phase2c_slowdown_no_floor :
    (∀ (dir : Dir) (meanrate : ℚ) (raisedbelowm allabovem : List Download)
       (i : ℕ) (hi : i < allabovem.length),
      ((phase2c dir meanrate raisedbelowm allabovem).abovemUpd)[i]? =
        some ((allabovem.get ⟨i, hi⟩).set_max_desired_speed dir
          ((allabovem.get ⟨i, hi⟩).get_max_desired_speed dir -
            (phase2c dir meanrate raisedbelowm allabovem).realup))) ∧
    ((CalculateBandwidthWS exManagerC10 .upload).map
        (fun d => d.get_max_desired_speed .upload) =
      [247 / 8, 247 / 8, 1 / 8, 553 / 8] ∧
     (1 / 8 : ℚ) < rateminimum .upload ∧
     (1 / 8 : ℚ) < (dispatch .upload (workingset exManagerC10 .upload)).meanrate /
       (((dispatch .upload (workingset exManagerC10 .upload)).toberaised.length +
         (dispatch .upload (workingset exManagerC10 .upload)).nottobechanged.length : ℕ) : ℚ)) := by
  constructor
  · intro dir meanrate raisedbelowm allabovem i hi
    simp only [phase2c, slow_down]
    rw [List.getElem?_map, List.getElem?_eq_getElem hi]
    rfl
  · refine ⟨?_, ?_, ?_⟩ <;>
      (first
        | decide
        | (norm_num [CalculateBandwidthWS, workingset, exManagerC10, exDownloadC10a,
        exDownloadC10b, exDownloadC10c, exDownloadC10d, StatusMap.get, StatusMap.empty,
        MaxRate, dispatch, prioritizelocal, resetNearZero, raiseinpriority_step,
        localprio_step, tobelowered_step, claimedrate, phase1_update, phase2a,
        lower_walk, updateByIdent, partition_raised, phase2c, raise_slow,
        slow_down, make_it_so, meancalcupth, calcupth1, calcupth2, rateminimum,
        Download.get_current_speed, Download.get_max_speed, Download.get_max_desired_speed,
        Download.set_max_desired_speed, Download.set_max_speed,
        Download.has_active_connections, Rates.get, Rates.set, Buckets.empty,
        ne_eq, List.cons_ne_nil, reduceCtorEq]
           try decide))

/-- Witness for C10 at a concrete Phase 2c instance (the buckets of the
`exManagerC10` cycle): the first above-mean torrent (desired 31) is lowered
by exactly `realup`. -/
theorem phase2c_slowdown_no_floor_inst :
    ((phase2c .upload (247 / 8) [exDownloadC10a, exDownloadC10b]
        [exDownloadC10c, exDownloadC10d]).abovemUpd)[0]? =
      some (exDownloadC10c.set_max_desired_speed .upload
        (exDownloadC10c.get_max_desired_speed .upload -
          (phase2c .upload (247 / 8) [exDownloadC10a, exDownloadC10b]
            [exDownloadC10c, exDownloadC10d]).realup)) := by
  exact phase2c_slowdown_no_floor.1 .upload (247 / 8) _ _ 0 (by norm_num)

/-- C4 (counterexample): on the claim's own scenario (cap 100, total
measured 50, one transfer with measured rate 40 and no local cap, so
pre-call desired rate 0) the free-wheeling shortcut sets the desired rate to
41.5 — a rise of 41.5, not of 1.5 as claimed — while the enforced rate does
become 100. -/
theorem freewheel_rise_cex :
    exDownloadC4.get_max_desired_speed .download = 0 ∧
    (CalculateBandwidthWS exManagerC4 .download).map
        (fun d => (d.get_max_desired_speed .download, d.get_max_speed .download)) =
      [(83 / 2, 100)] ∧
    (83 / 2 : ℚ) - 0 ≠ 3 / 2 := by
  refine ⟨rfl, ?_, by norm_num⟩
  norm_num [CalculateBandwidthWS, workingset, exManagerC4, exDownloadC4, StatusMap.get,
    StatusMap.empty, MaxRate, resetNearZero, meancalcupth, calcupth1, calcupth2,
    prioritizelocal, rateminimum, Download.get_current_speed, Download.get_max_speed,
    Download.get_max_desired_speed, Download.set_max_desired_speed, Download.set_max_speed,
    Download.has_active_connections, Rates.get, Rates.set, ne_eq, List.cons_ne_nil]

/-- C4 (amended): when the cap is non-zero and more than 20% of it is idle,
the shortcut processes every working-set torrent as it stands after the
dispatch pass (which resets the desired rate of torrents measured below
0.05): the new desired rate is `measured + meanThreshold`, clamped down to
the local cap when one (> 0) is set; the enforced rate becomes the local cap
when one is set, else the global cap.  No later phase runs. -/
theorem freewheel_amended (rm : RateManager) (dir : Dir) (i : ℕ)
    (h1 : MaxRate rm dir ≠ 0)
    (h2 : 1 - rm.currenttotal.get dir / MaxRate rm dir > 1 / 5)
    (hi : i < (resetNearZero dir (workingset rm dir)).length) :
    (CalculateBandwidthWS rm dir)[i]? =
      some
        (let d := (resetNearZero dir (workingset rm dir))[i]
         if d.get_max_desired_speed dir > 0 then
           (d.set_max_desired_speed dir
               (min (d.get_current_speed dir + meancalcupth)
                 (d.get_max_desired_speed dir))).set_max_speed dir
             (d.get_max_desired_speed dir)
         else
           (d.set_max_desired_speed dir
               (d.get_current_speed dir + meancalcupth)).set_max_speed dir
             (MaxRate rm dir)) := by
  have hne : workingset rm dir ≠ [] := by
    intro h
    rw [h] at hi
    simp [resetNearZero] at hi
  simp only [CalculateBandwidthWS]
  rw [if_neg hne, if_neg h1, if_pos ⟨h1, h2⟩, List.getElem?_map,
    List.getElem?_eq_getElem hi, Option.map_some']
  set d := (resetNearZero dir (workingset rm dir))[i] with hd
  by_cases hloc : d.get_max_desired_speed dir > 0
  · rw [if_pos hloc, if_pos hloc]
    rcases le_or_lt (d.get_current_speed dir + meancalcupth) (d.get_max_desired_speed dir)
      with hle | hlt
    · rw [if_neg (not_lt.mpr hle), min_eq_left hle]
    · rw [if_pos hlt, min_eq_right hlt.le]
  · rw [if_neg hloc, if_neg hloc]

/-- Witness for C4 (amended) on the corrected scenario: desired rate 41.5,
enforced rate 100. -/
theorem freewheel_amended_inst :
    MaxRate exManagerC4 .download ≠ 0 ∧
    1 - exManagerC4.currenttotal.get .download / MaxRate exManagerC4 .download > 1 / 5 ∧
    (CalculateBandwidthWS exManagerC4 .download)[0]? =
      some ((exDownloadC4.set_max_desired_speed .download (83 / 2)).set_max_speed
        .download 100) := by
  have ha : MaxRate exManagerC4 .download ≠ 0 := by
    norm_num [MaxRate, exManagerC4]
  have hb : 1 - exManagerC4.currenttotal.get .download / MaxRate exManagerC4 .download
      > 1 / 5 := by
    norm_num [MaxRate, exManagerC4, Rates.get]
  have hc : (0 : ℕ) < (resetNearZero .download (workingset exManagerC4 .download)).length := by
    norm_num [resetNearZero, workingset, exManagerC4, exDownloadC4, StatusMap.get,
      StatusMap.empty, Download.has_active_connections]
  have h := freewheel_amended exManagerC4 .download 0 ha hb hc
  refine ⟨ha, hb, ?_⟩
  rw [h]
  norm_num [resetNearZero, workingset, exManagerC4, exDownloadC4, StatusMap.get,
    StatusMap.empty, MaxRate, meancalcupth, calcupth1, calcupth2, prioritizelocal,
    Download.get_current_speed, Download.get_max_desired_speed,
    Download.set_max_desired_speed, Download.set_max_speed,
    Download.has_active_connections, Rates.get, Rates.set]

/-- Appending a torrent to its status bucket adds exactly that torrent to
the registry's entries, up to order. -/
theorem allEntries_appendTo (sm : StatusMap) (s : DLStatus) (x : Download) :
    (allEntries (sm.appendTo s x)).Perm (x :: allEntries sm) := by
  cases s <;>
    · rw [List.perm_iff_count]
      intro a
      by_cases h : a = x <;>
        (simp [allEntries, StatusMap.appendTo, List.count_append, List.count_cons, h]
         try omega)

/-- C8: the registry invariant — each direction's running total equals the
sum of the measured rates sampled at insertion over exactly the registered
torrents — is preserved by `add_downloadstate` and holds after
`clear_downloadstates`; after a clear every bucket is empty, both totals are
zero and the seen-set is empty. -/
theorem registry_invariant_preserved (rm : RateManager) (d : Download)
    (h : regInvariant rm) :
    regInvariant (add_downloadstate rm d).2 ∧
    regInvariant (clear_downloadstates rm) ∧
    (∀ s, (clear_downloadstates rm).statusmap.get s = []) ∧
    (clear_downloadstates rm).currenttotal = ⟨0, 0⟩ ∧
    (clear_downloadstates rm).dset = [] := by
  obtain ⟨hu, hd2, hp⟩ := h
  refine ⟨?_, ⟨rfl, rfl, List.Perm.refl _⟩, fun s => by cases s <;> rfl, rfl, rfl⟩
  by_cases hm : d.ident ∈ rm.dset
  · simp only [add_downloadstate, if_pos hm]
    exact ⟨hu, hd2, hp⟩
  · have hperm := allEntries_appendTo rm.statusmap d.status d
    simp only [add_downloadstate, if_neg hm]
    refine ⟨?_, ?_, ?_⟩
    · rw [(hperm.map fun t => t.current.up).sum_eq]
      simp [hu]
      ring
    · rw [(hperm.map fun t => t.current.down).sum_eq]
      simp [hd2]
      ring
    · have h1 : (List.map (fun t => t.ident)
          (allEntries (rm.statusmap.appendTo d.status d))).Perm
            (d.ident :: List.map (fun t => t.ident) (allEntries rm.statusmap)) := by
        simpa using hperm.map fun t => t.ident
      exact (h1.trans (hp.cons d.ident)).trans
        (List.perm_append_singleton d.ident rm.dset).symm

/-- Witness for C8: the invariant holds for a fresh manager and is preserved
when a torrent is registered. -/
theorem registry_invariant_preserved_inst :
    regInvariant exManagerReg ∧
    regInvariant (add_downloadstate exManagerReg exDownloadReg).2 := by
  have h0 : regInvariant exManagerReg := ⟨rfl, rfl, List.Perm.refl _⟩
  exact ⟨h0, (registry_invariant_preserved exManagerReg exDownloadReg h0).1⟩

/-- When every working-set torrent is measured at or above 0.05 and either
has a gap above `calcupth1` (to be lowered) or a gap at most `calcupth2`
with a measured rate below the minimum (to be raised in priority), the
dispatch pass fills exactly the `tobelowered` and `toberaisedinpriority`
buckets, split by the gap test. -/
theorem dispatch_split (dir : Dir) (ws : List Download)
    (hnz : ∀ d ∈ ws, ¬ d.get_current_speed dir < 1 / 20)
    (hlow : ∀ d ∈ ws, d.get_max_speed dir - d.get_current_speed dir > calcupth1 ∨
      (d.get_max_speed dir - d.get_current_speed dir ≤ calcupth2 ∧
       d.get_current_speed dir < rateminimum dir)) :
    (dispatch dir ws).rest = [] ∧ (dispatch dir ws).toberaised = [] ∧
    (dispatch dir ws).nottobechanged = [] ∧
    (dispatch dir ws).tobelowered = ws.filter
      (fun d => decide (calcupth1 < d.get_max_speed dir - d.get_current_speed dir)) ∧
    (dispatch dir ws).toberaisedinpriority = ws.filter
      (fun d => !decide (calcupth1 < d.get_max_speed dir - d.get_current_speed dir)) := by
  induction ws with
  | nil => exact ⟨rfl, rfl, rfl, rfl, rfl⟩
  | cons d ws ih =>
    have hdz := hnz d (List.mem_cons_self d ws)
    have hdl := hlow d (List.mem_cons_self d ws)
    obtain ⟨ih1, ih2, ih3, ih4, ih5⟩ :=
      ih (fun x hx => hnz x (List.mem_cons_of_mem d hx))
        (fun x hx => hlow x (List.mem_cons_of_mem d hx))
    have hpl : ¬(prioritizelocal = true ∧ d.get_max_desired_speed dir ≠ 0) := by
      simp [prioritizelocal]
    simp only [dispatch, if_neg hpl, if_neg hdz]
    rcases hdl with hgap | ⟨hle, hmin⟩
    · rw [if_pos hgap]
      refine ⟨ih1, ih2, ih3, ?_, ?_⟩
      · rw [List.filter_cons_of_pos (by simpa using hgap), ih4]
      · rw [List.filter_cons_of_neg (by simpa using not_not_intro hgap), ih5]
    · have hngap : ¬ d.get_max_speed dir - d.get_current_speed dir > calcupth1 := by
        have : calcupth2 < calcupth1 := by norm_num [calcupth1, calcupth2]
        exact not_lt.mpr (hle.trans this.le)
      rw [if_neg hngap, if_pos hle, if_pos hmin]
      refine ⟨ih1, ih2, ih3, ?_, ?_⟩
      · rw [List.filter_cons_of_neg (by simpa using hngap), ih4]
      · rw [List.filter_cons_of_pos (by simpa using hngap), ih5]

/-- The apply step copies desired rates into enforced rates: the enforced
rates of its output are the desired rates of its input (same direction on
both sides). -/
theorem make_it_so_maxspeed_sum (dir : Dir) (l : List Download) :
    (make_it_so dir dir l).map (fun d => d.get_max_speed dir) =
      l.map fun d => d.get_max_desired_speed dir := by
  induction l with
  | nil => rfl
  | cons d l ih =>
    simp only [make_it_so, List.map_cons] at ih ⊢
    rw [ih]
    simp

/-- For raise-in-priority torrents whose pre-call desired rate is zero, the
sum of the granted desired rates equals the accumulated grant. -/
theorem raiseinpriority_sum (dir : Dir) (l : List Download)
    (h : ∀ d ∈ l, d.get_max_desired_speed dir = 0) :
    ((raiseinpriority_step dir l).2.map (fun d => d.get_max_desired_speed dir)).sum =
      (raiseinpriority_step dir l).1 := by
  induction l with
  | nil => simp [raiseinpriority_step]
  | cons d l ih =>
    have hd := h d (List.mem_cons_self d l)
    have ht := ih fun x hx => h x (List.mem_cons_of_mem d hx)
    simp only [raiseinpriority_step]
    split
    · simp [ht, hd]
      ring
    · simp [ht, hd]
      ring

/-- Each lowered torrent ends with desired rate `measured + meanThreshold`,
so their post-step desired rates sum to the measured total plus one mean
threshold per torrent. -/
theorem tobelowered_sum (dir : Dir) (l : List Download) :
    ((tobelowered_step dir l).2.map (fun d => d.get_max_desired_speed dir)).sum =
      (l.map (fun d => d.get_current_speed dir)).sum + meancalcupth * l.length := by
  induction l with
  | nil => simp [tobelowered_step]
  | cons d l ih =>
    simp only [tobelowered_step]
    simp [ih]
    ring

/-- Dropping list elements cannot increase a sum of non-negative values. -/
theorem sum_filter_le_sum (f : Download → ℚ) (p : Download → Bool) (l : List Download)
    (h : ∀ d ∈ l, 0 ≤ f d) :
    ((l.filter p).map f).sum ≤ (l.map f).sum := by
  induction l with
  | nil => simp
  | cons d l ih =>
    have hd := h d (List.mem_cons_self d l)
    have ht := ih fun x hx => h x (List.mem_cons_of_mem d hx)
    by_cases hp : p d
    · rw [List.filter_cons_of_pos hp]
      simpa using ht
    · rw [List.filter_cons_of_neg hp]
      simp only [List.map_cons, List.sum_cons]
      linarith

/-- C5 (counterexample): download cap 10, one torrent measured at 9 with
enforced rate 12 (so it is classified to-be-lowered) and pre-call desired
rate 0; utilisation is 90% so the free-wheeling shortcut does not trigger,
and no priority or local bandwidth is granted.  After the cycle the sum of
enforced rates over `toberegulated` is 10.5 > cap + grants = 10: the
lowered torrent is granted `measured + meanThreshold`, which overshoots the
cap. -/
theorem cap_respect_cex :
    MaxRate exManagerC5 .download = 10 ∧
    ¬(1 - exManagerC5.currenttotal.get .download / MaxRate exManagerC5 .download
        > 1 / 5) ∧
    (raiseinpriority_step .download
        (dispatch .download (workingset exManagerC5 .download)).toberaisedinpriority).1
      = 0 ∧
    (localprio_step .download
        (dispatch .download (workingset exManagerC5 .download)).localprioactive).1 = 0 ∧
    ((CalculateBandwidthWS exManagerC5 .download).map
        (fun d => d.get_max_speed .download)).sum = 21 / 2 ∧
    ¬((21 / 2 : ℚ) ≤ 10 + 0 + 0) := by
  refine ⟨rfl, ?_, ?_, ?_, ?_, by norm_num⟩ <;>
    norm_num [CalculateBandwidthWS, workingset, exManagerC5, exDownloadC5, StatusMap.get,
      StatusMap.empty, MaxRate, dispatch, prioritizelocal, raiseinpriority_step,
      localprio_step, tobelowered_step, make_it_so, meancalcupth, calcupth1, calcupth2,
      rateminimum, Buckets.empty, Download.get_current_speed, Download.get_max_speed,
      Download.get_max_desired_speed, Download.set_max_desired_speed,
      Download.set_max_speed, Download.has_active_connections, Rates.get, Rates.set,
      ne_eq, List.cons_ne_nil]

/-- C5 (amended): with a positive cap, no free-wheeling, an empty
`toberaised` bucket, every working-set torrent measured at or above 0.05 and
classified to-be-lowered or to-be-raised-in-priority, all pre-call desired
rates zero, and the working set's measured total at most the cap, the sum of
enforced rates over the cycle's output is at most the cap plus the granted
priority and local bandwidth plus one mean threshold per working-set
torrent. -/
theorem cap_respect_amended (rm : RateManager) (dir : Dir)
    (h0 : 0 < MaxRate rm dir)
    (hfw : 1 - rm.currenttotal.get dir / MaxRate rm dir ≤ 1 / 5)
    (hdes : ∀ d ∈ workingset rm dir, d.get_max_desired_speed dir = 0)
    (hnz : ∀ d ∈ workingset rm dir, ¬ d.get_current_speed dir < 1 / 20)
    (hlow : ∀ d ∈ workingset rm dir,
      d.get_max_speed dir - d.get_current_speed dir > calcupth1 ∨
      (d.get_max_speed dir - d.get_current_speed dir ≤ calcupth2 ∧
       d.get_current_speed dir < rateminimum dir))
    (hsum : ((workingset rm dir).map (fun d => d.get_current_speed dir)).sum
      ≤ MaxRate rm dir) :
    ((CalculateBandwidthWS rm dir).map (fun d => d.get_max_speed dir)).sum ≤
      MaxRate rm dir +
      (raiseinpriority_step dir
        (dispatch dir (workingset rm dir)).toberaisedinpriority).1 +
      (localprio_step dir (dispatch dir (workingset rm dir)).localprioactive).1 +
      meancalcupth * (workingset rm dir).length := by
  have hmean : (0 : ℚ) ≤ meancalcupth := by
    norm_num [meancalcupth, calcupth1, calcupth2]
  have hlpa := dispatch_localprio_nil dir (workingset rm dir)
  by_cases hws : workingset rm dir = []
  · simp only [CalculateBandwidthWS]
    rw [if_pos hws, hws]
    simp [dispatch, Buckets.empty, raiseinpriority_step, localprio_step]
    linarith
  · obtain ⟨hrest, hraised, hntbc, hlowed, hprio⟩ :=
      dispatch_split dir (workingset rm dir) hnz hlow
    have hne0 : MaxRate rm dir ≠ 0 := ne_of_gt h0
    have hnfw : ¬(MaxRate rm dir ≠ 0 ∧
        1 - rm.currenttotal.get dir / MaxRate rm dir > 1 / 5) :=
      fun hc => absurd hc.2 (not_lt.mpr hfw)
    simp only [CalculateBandwidthWS]
    rw [if_neg hws, if_neg hne0, if_neg hnfw, if_pos hraised, hrest, hntbc, hlpa]
    have hlp2 : (localprio_step dir ([] : List Download)).2 = [] := rfl
    rw [hlp2, List.append_nil, List.nil_append, List.append_nil,
      make_it_so_maxspeed_sum, List.map_append, List.sum_append]
    have hpriosum := raiseinpriority_sum dir
      (dispatch dir (workingset rm dir)).toberaisedinpriority
      (fun x hx => hdes x (by
        rw [hprio] at hx
        exact (List.mem_filter.mp hx).1))
    rw [hpriosum, tobelowered_sum, hlowed]
    have hfil : ((((workingset rm dir).filter
        (fun d => decide (calcupth1 < d.get_max_speed dir - d.get_current_speed dir))).map
          (fun d => d.get_current_speed dir)).sum) ≤
        ((workingset rm dir).map (fun d => d.get_current_speed dir)).sum := by
      refine sum_filter_le_sum _ _ _ fun x hx => ?_
      have := hnz x hx
      linarith [not_lt.mp this]
    have hlen : (((workingset rm dir).filter
        (fun d => decide (calcupth1 < d.get_max_speed dir - d.get_current_speed dir))).length
          : ℚ) ≤ ((workingset rm dir).length : ℚ) := by
      exact_mod_cast Nat.cast_le.mpr (List.length_filter_le _ _)
    have hmul : meancalcupth * (((workingset rm dir).filter
        (fun d => decide (calcupth1 < d.get_max_speed dir - d.get_current_speed dir))).length
          : ℚ) ≤ meancalcupth * ((workingset rm dir).length : ℚ) :=
      mul_le_mul_of_nonneg_left hlen hmean
    have hlp1 : (localprio_step dir ([] : List Download)).1 = 0 := rfl
    rw [hlp1]
    linarith

/-- Witness for C5 (amended): upload cap 8, one lowered and one priority
torrent, measured total 6, no free-wheeling; the amended bound holds. -/
theorem cap_respect_amended_inst :
    ((CalculateBandwidthWS exManagerC5w .upload).map
        (fun d => d.get_max_speed .upload)).sum ≤
      MaxRate exManagerC5w .upload +
      (raiseinpriority_step .upload
        (dispatch .upload (workingset exManagerC5w .upload)).toberaisedinpriority).1 +
      (localprio_step .upload
        (dispatch .upload (workingset exManagerC5w .upload)).localprioactive).1 +
      meancalcupth * (workingset exManagerC5w .upload).length := by
  have hws : workingset exManagerC5w .upload = [exDownloadC5a, exDownloadC5b] := by
    norm_num [workingset, exManagerC5w, StatusMap.get, StatusMap.empty,
      Download.has_active_connections, exDownloadC5a, exDownloadC5b]
  refine cap_respect_amended exManagerC5w .upload ?_ ?_ ?_ ?_ ?_ ?_
  · norm_num [MaxRate, exManagerC5w, StatusMap.get, StatusMap.empty]
  · norm_num [MaxRate, exManagerC5w, StatusMap.get, StatusMap.empty, Rates.get]
  · intro d hd
    rw [hws] at hd
    simp only [List.mem_cons, List.not_mem_nil, or_false] at hd
    rcases hd with rfl | rfl <;> rfl
  · intro d hd
    rw [hws] at hd
    simp only [List.mem_cons, List.not_mem_nil, or_false] at hd
    rcases hd with rfl | rfl
    · norm_num [exDownloadC5a, Download.get_current_speed, Rates.get]
    · norm_num [exDownloadC5b, Download.get_current_speed, Rates.get]
  · intro d hd
    rw [hws] at hd
    simp only [List.mem_cons, List.not_mem_nil, or_false] at hd
    rcases hd with rfl | rfl
    · left
      norm_num [exDownloadC5a, Download.get_current_speed, Download.get_max_speed,
        Rates.get, calcupth1]
    · right
      norm_num [exDownloadC5b, Download.get_current_speed, Download.get_max_speed,
        Rates.get, calcupth2, rateminimum]
  · rw [hws]
    norm_num [exDownloadC5a, exDownloadC5b, Download.get_current_speed, Rates.get,
      MaxRate, exManagerC5w, StatusMap.get, StatusMap.empty]
